import Mathlib

/-!
Verification of the LeapUniRankBot core (rate-limited multi-source data
acquisition and score-estimation engine) against its specification.

The Python sources `src/ranking/pkUniRankBot.py` and
`src/ranking/pkWAUniRankBot.py` are embedded shallowly:

* machine floats are modelled as rationals (`ℚ`); `round(x, 1)` is modelled
  by `round1` below (round to nearest tenth);
* timestamps (`datetime.now()`) are rationals measured in seconds;
* dictionaries with insertion order are association lists in source order;
* external effects (network fetch outcomes, `hashlib.md5`, RNG draws) are
  explicit parameters of the embedded functions.
-/

/-- Python's `needle in hay` substring test, on lists of characters:
`true` iff `needle` occurs contiguously inside the second list. -/
def listContainsSub (needle : List Char) : List Char → Bool
  | [] => needle.isEmpty
  | c :: t => needle.isPrefixOf (c :: t) || listContainsSub needle t

/-- Python's `needle in hay` on strings. -/
def strContains (hay needle : String) : Bool :=
  listContainsSub needle.toList hay.toList

/-- Python's `any(word in hay for word in needles)`. -/
def strContainsAny (hay : String) (needles : List String) : Bool :=
  needles.any (strContains hay)

/-- Python `s.lower()` (ASCII, as in all inputs this program handles). -/
def strLower (s : String) : String :=
  String.mk (s.toList.map Char.toLower)

/-- Python `s.upper()`. -/
def strUpper (s : String) : String :=
  String.mk (s.toList.map Char.toUpper)

/-- Python `round(x, 1)`: round to one decimal place.  (Mathlib's `round`
rounds half up where Python rounds half to even; every statement below uses
only monotonicity and fixed points of `round1` at one-decimal endpoints, on
which the two tie-breaking rules agree.) -/
def round1 (x : ℚ) : ℚ :=
  (round (10 * x) : ℤ) / 10

/-- The fixed 6-dimension score vector (`self.parameters` keys, in the
source's insertion order academic, graduate, roi, fsr, transparency,
visibility). -/
structure Scores where
  academic : ℚ
  graduate : ℚ
  roi : ℚ
  fsr : ℚ
  transparency : ℚ
  visibility : ℚ
deriving DecidableEq

/-- The declared per-parameter maxima (`self.parameters[...]['max']`). -/
def parametersMax : Scores := ⟨25, 25, 20, 15, 10, 5⟩

/-- Every field within `[0, its declared max]`. -/
def ScoresInBounds (s : Scores) : Prop :=
  (0 ≤ s.academic ∧ s.academic ≤ parametersMax.academic) ∧
  (0 ≤ s.graduate ∧ s.graduate ≤ parametersMax.graduate) ∧
  (0 ≤ s.roi ∧ s.roi ≤ parametersMax.roi) ∧
  (0 ≤ s.fsr ∧ s.fsr ≤ parametersMax.fsr) ∧
  (0 ≤ s.transparency ∧ s.transparency ≤ parametersMax.transparency) ∧
  (0 ≤ s.visibility ∧ s.visibility ≤ parametersMax.visibility)

instance (s : Scores) : Decidable (ScoresInBounds s) := by
  unfold ScoresInBounds; infer_instance

/-- `self.tiers` of `UniversityRankingSystem.__init__` (pkUniRankBot.py):
(label, lower bound, upper bound, description), in insertion order. -/
def tiers : List (String × ℚ × ℚ × String) :=
  [("A+", 85, 100, "🎖️ WORLD-CLASS"),
   ("A", 75, 84.999, "⭐ EXCELLENT"),
   ("B", 65, 74.999, "👍 GOOD"),
   ("C+", 55, 64.999, "📊 AVERAGE"),
   ("C", 45, 54.999, "⚠️ BELOW AVERAGE"),
   ("D", 0, 44.999, "🚨 POOR")]

/-- `UniversityRankingSystem.get_tier`: first tier whose inclusive range
contains the score, defaulting to `D`. -/
def getTier (score : ℚ) : String × String :=
  match tiers.find? (fun t => decide (t.2.1 ≤ score ∧ score ≤ t.2.2.1)) with
  | some t => (t.1, t.2.2.2)
  | none => ("D", "🚨 POOR")

/-- C1: the tier table is inclusive at both ends with upper bounds like
84.999, so scores inside a gap such as 84.9995 ∈ [75, 85) fall through every
range test and hit the default, classifying as `D` rather than `A`; the
historical boundary case 84.2 itself does classify as `A`. -/
theorem getTier_returns_D_in_band_gap :
    getTier (84.9995 : ℚ) = ("D", "🚨 POOR") ∧
    ((75 : ℚ) ≤ 84.9995 ∧ (84.9995 : ℚ) < 85) ∧
    getTier (84.2 : ℚ) = ("A", "⭐ EXCELLENT") := by
  refine ⟨?_, ⟨by norm_num, by norm_num⟩, ?_⟩ <;>
    norm_num [getTier, tiers, List.find?]

/-- `APIType` enum. -/
inductive APIType where
  | wikipedia
  | googleSearch
  | webometrics
  | qsRankings
  | theRankings
  | governmentApi
deriving DecidableEq

/-- `APIType.value` strings. -/
def APIType.value : APIType → String
  | .wikipedia => "wikipedia"
  | .googleSearch => "google_search"
  | .webometrics => "webometrics"
  | .qsRankings => "qs_rankings"
  | .theRankings => "the_rankings"
  | .governmentApi => "government_api"

/-- `RateLimitInfo` dataclass: three window ceilings and the reset horizons
(in the source's units: minutes, hours, days — note `reset_interval_days`
defaults to `24` and is used as a number of days). -/
structure RateLimitInfo where
  requestsPerMinute : ℕ
  requestsPerHour : ℕ
  requestsPerDay : ℕ
  resetIntervalMinutes : ℕ
  resetIntervalHours : ℕ
  resetIntervalDays : ℕ
deriving DecidableEq

/-- `RateLimitInfo.get_reset_time`: `now` plus the window's reset horizon,
converted to seconds (timestamps are rationals in seconds). -/
def RateLimitInfo.getResetTime (info : RateLimitInfo) (now : ℚ) (timeUnit : String) : ℚ :=
  if timeUnit = "minute" then now + 60 * info.resetIntervalMinutes
  else if timeUnit = "hour" then now + 3600 * info.resetIntervalHours
  else if timeUnit = "day" then now + 86400 * info.resetIntervalDays
  else now

/-- `RateLimiter.__init__`'s `self.limits` table. -/
def rateLimits : APIType → RateLimitInfo
  | .wikipedia => ⟨100, 2000, 10000, 1, 1, 24⟩
  | .googleSearch => ⟨10, 100, 1000, 1, 1, 24⟩
  | .webometrics => ⟨30, 500, 5000, 1, 1, 24⟩
  | .qsRankings => ⟨20, 200, 2000, 1, 1, 24⟩
  | .theRankings => ⟨20, 200, 2000, 1, 1, 24⟩
  | .governmentApi => ⟨5, 50, 500, 1, 1, 24⟩

/-- `APICallTracker.get_recent_calls` / `get_hourly_calls` /
`get_daily_calls`: number of logged timestamps strictly newer than
`now - window`. -/
def windowCount (calls : List ℚ) (now window : ℚ) : ℕ :=
  (calls.filter (fun c => decide (now - window < c))).length

/-- `APICallTracker.add_call`: append `now`, then prune entries not strictly
newer than `now - 24h`. -/
def addCall (calls : List ℚ) (now : ℚ) : List ℚ :=
  (calls ++ [now]).filter (fun c => decide (now - 86400 < c))

/-- `RateLimitExceededException` payload: offending source, computed reset
timestamp, human-readable limit description. -/
structure RateLimitErr where
  apiType : APIType
  resetTime : ℚ
  limitDetails : String
deriving DecidableEq

/-- `RateLimiter.check_rate_limit`: evaluate minute, then hour, then day
window against its ceiling; fail on the first window whose count has reached
the ceiling, carrying `get_reset_time` of that window and a limit
description.  The call log is taken read-only: `check` records nothing. -/
def checkRateLimit (a : APIType) (calls : List ℚ) (now : ℚ) : Except RateLimitErr Unit :=
  if (rateLimits a).requestsPerMinute ≤ windowCount calls now 60 then
    .error ⟨a, (rateLimits a).getResetTime now "minute",
      "Minute limit: " ++ toString (rateLimits a).requestsPerMinute ++ " calls"⟩
  else if (rateLimits a).requestsPerHour ≤ windowCount calls now 3600 then
    .error ⟨a, (rateLimits a).getResetTime now "hour",
      "Hourly limit: " ++ toString (rateLimits a).requestsPerHour ++ " calls"⟩
  else if (rateLimits a).requestsPerDay ≤ windowCount calls now 86400 then
    .error ⟨a, (rateLimits a).getResetTime now "day",
      "Daily limit: " ++ toString (rateLimits a).requestsPerDay ++ " calls"⟩
  else .ok ()

/-- `get_reset_time` on the minute window. -/
theorem getResetTime_minute (i : RateLimitInfo) (now : ℚ) :
    i.getResetTime now "minute" = now + 60 * i.resetIntervalMinutes := rfl

/-- `get_reset_time` on the hour window. -/
theorem getResetTime_hour (i : RateLimitInfo) (now : ℚ) :
    i.getResetTime now "hour" = now + 3600 * i.resetIntervalHours := by
  rw [RateLimitInfo.getResetTime, if_neg (by decide), if_pos rfl]

/-- `get_reset_time` on the day window. -/
theorem getResetTime_day (i : RateLimitInfo) (now : ℚ) :
    i.getResetTime now "day" = now + 86400 * i.resetIntervalDays := by
  rw [RateLimitInfo.getResetTime, if_neg (by decide), if_neg (by decide), if_pos rfl]

/-- C2: `check` succeeds iff every window count is below its ceiling; it
fails on the first exceeded window (minute, then hour, then day), reporting
that window's reset timestamp (`now` + that window's reset horizon) and its
limit description; and once every count at a later instant is again below
its ceiling — in particular once all logged calls have aged out of the
minute window — `check` succeeds again. -/
theorem checkRateLimit_first_exceeded_window (a : APIType) (calls : List ℚ) (now now2 : ℚ) :
    (checkRateLimit a calls now = .ok () ↔
      windowCount calls now 60 < (rateLimits a).requestsPerMinute ∧
      windowCount calls now 3600 < (rateLimits a).requestsPerHour ∧
      windowCount calls now 86400 < (rateLimits a).requestsPerDay) ∧
    ((rateLimits a).requestsPerMinute ≤ windowCount calls now 60 →
      checkRateLimit a calls now =
        .error ⟨a, now + 60 * (rateLimits a).resetIntervalMinutes,
          "Minute limit: " ++ toString (rateLimits a).requestsPerMinute ++ " calls"⟩) ∧
    (windowCount calls now 60 < (rateLimits a).requestsPerMinute →
      (rateLimits a).requestsPerHour ≤ windowCount calls now 3600 →
      checkRateLimit a calls now =
        .error ⟨a, now + 3600 * (rateLimits a).resetIntervalHours,
          "Hourly limit: " ++ toString (rateLimits a).requestsPerHour ++ " calls"⟩) ∧
    (windowCount calls now 60 < (rateLimits a).requestsPerMinute →
      windowCount calls now 3600 < (rateLimits a).requestsPerHour →
      (rateLimits a).requestsPerDay ≤ windowCount calls now 86400 →
      checkRateLimit a calls now =
        .error ⟨a, now + 86400 * (rateLimits a).resetIntervalDays,
          "Daily limit: " ++ toString (rateLimits a).requestsPerDay ++ " calls"⟩) ∧
    ((∀ c ∈ calls, c ≤ now2 - 60) →
      windowCount calls now2 3600 < (rateLimits a).requestsPerHour →
      windowCount calls now2 86400 < (rateLimits a).requestsPerDay →
      0 < (rateLimits a).requestsPerMinute →
      checkRateLimit a calls now2 = .ok ()) := by
  have hmin : ∀ n : ℚ, (∀ c ∈ calls, c ≤ n - 60) → windowCount calls n 60 = 0 := by
    intro n h
    unfold windowCount
    rw [List.length_eq_zero, List.filter_eq_nil_iff]
    intro c hc
    simpa using not_lt.mpr (h c hc)
  refine ⟨?_, ?_, ?_, ?_, ?_⟩
  · rw [checkRateLimit]
    split_ifs with h1 h2 h3 <;> simp <;> omega
  · intro h
    rw [checkRateLimit, if_pos h, getResetTime_minute]
  · intro h1 h2
    rw [checkRateLimit, if_neg (by omega), if_pos h2, getResetTime_hour]
  · intro h1 h2 h3
    rw [checkRateLimit, if_neg (by omega), if_neg (by omega), if_pos h3, getResetTime_day]
  · intro h1 h2 h3 h4
    rw [checkRateLimit, if_neg (by rw [hmin now2 h1]; omega), if_neg (by omega), if_neg (by omega)]

/-- Witness for C2 at the strictest source (government, 5/minute): five
calls at time 0 deny the sixth with the minute reset, and the same log
checked at time 3600 (all calls aged out) passes again. -/
theorem checkRateLimit_first_exceeded_window_witness :
    ((rateLimits .governmentApi).requestsPerMinute ≤
        windowCount [0, 0, 0, 0, 0] 0 60) ∧
    checkRateLimit .governmentApi [0, 0, 0, 0, 0] 0 =
      .error ⟨.governmentApi, 0 + 60 * (rateLimits APIType.governmentApi).resetIntervalMinutes,
        "Minute limit: " ++ toString (rateLimits APIType.governmentApi).requestsPerMinute ++ " calls"⟩ ∧
    checkRateLimit .governmentApi [0, 0, 0, 0, 0] 3600 = .ok () := by
  refine ⟨by norm_num [rateLimits, windowCount, List.filter], ?_, ?_⟩
  · exact (checkRateLimit_first_exceeded_window .governmentApi [0, 0, 0, 0, 0] 0 0).2.1
      (by norm_num [rateLimits, windowCount, List.filter])
  · exact (checkRateLimit_first_exceeded_window .governmentApi [0, 0, 0, 0, 0] 0 3600).2.2.2.2
      (by intro c hc; simp at hc; norm_num [hc])
      (by norm_num [rateLimits, windowCount, List.filter])
      (by norm_num [rateLimits, windowCount, List.filter])
      (by norm_num [rateLimits])

/-- Outcome of the external call inside `safe_fetch_wikipedia`:
`wikipedia.page` succeeds, raises a `DisambiguationError` (first-option
retry then succeeds or fails), raises a `PageError`, or raises any other
exception (network error, parse error, …). -/
inductive WikiOutcome where
  | success (summary url : String)
  | disambigRetryOk (summary url firstOption : String)
  | disambigRetryFail
  | pageError
  | otherError
deriving DecidableEq

/-- Normalized Wikipedia payload fragment (summary truncated to 500
characters; categories/rankings/fetch-time fields elided as inert data). -/
structure WikiData where
  summary : String
  url : String
  note : Option String
deriving DecidableEq

/-- `RateLimitedDataFetcher.safe_fetch_wikipedia`, as a function of the
call log, the current instant and the external outcome.  Result: the
returned value (or the propagated rate-limit failure), the updated call log,
and how many times `record_call` ran.  The final branch mirrors the
source's outer `except Exception` handler, which logs and returns `None`
without recording. -/
def safeFetchWikipedia (name : String) (calls : List ℚ) (now : ℚ) (outcome : WikiOutcome) :
    Except RateLimitErr (Option WikiData) × List ℚ × ℕ :=
  match checkRateLimit .wikipedia calls now with
  | .error e => (.error e, calls, 0)
  | .ok _ =>
    match outcome with
    | .success summary url =>
        (.ok (some ⟨summary.take 500, url, none⟩), addCall calls now, 1)
    | .disambigRetryOk summary url firstOption =>
        (.ok (some ⟨summary.take 500, url, some ("Used disambiguation: " ++ firstOption)⟩),
          addCall calls now, 1)
    | .disambigRetryFail => (.ok none, addCall calls now, 1)
    | .pageError => (.ok none, addCall calls now, 1)
    | .otherError => (.ok none, calls, 0)

/-- Outcome of the HTTP GET inside `safe_google_search`. -/
inductive GoogleOutcome where
  | http200 (hrefs : List String)
  | httpOther
  | netError
deriving DecidableEq

/-- `RateLimitedDataFetcher.safe_google_search`.  Its single
`except Exception` handler catches *everything* — including
`RateLimitExceededException` raised by `check_rate_limit` — records a call
and returns `[]`; so no branch ever produces an error and every branch
records exactly once. -/
def safeGoogleSearch (calls : List ℚ) (now : ℚ) (outcome : GoogleOutcome) :
    Except RateLimitErr (List String) × List ℚ × ℕ :=
  match checkRateLimit .googleSearch calls now with
  | .error _ => (.ok [], addCall calls now, 1)
  | .ok _ =>
    match outcome with
    | .http200 hrefs =>
        (.ok ((hrefs.filter
          (fun h => h.startsWith "http" && !(strContains h "google.com"))).take 3),
          addCall calls now, 1)
    | .httpOther => (.ok [], addCall calls now, 1)
    | .netError => (.ok [], addCall calls now, 1)

/-- Outcome of the HTTP GET inside `safe_fetch_webometrics`. -/
inductive WebOutcome where
  | http200 (contentLength : ℕ)
  | http429 (retryAfter : ℕ)
  | httpOtherStatus
  | netError
deriving DecidableEq

/-- Normalized Webometrics payload fragment. -/
structure WebometricsData where
  url : String
  status : String
  contentLength : ℕ
  note : String
deriving DecidableEq

/-- `RateLimitedDataFetcher.safe_fetch_webometrics`: `record_call` runs
right after the GET, before the status check, so success, 429 and other
statuses each record once; the generic handler records too ("still record
the attempt"); an HTTP 429 is re-raised as a rate-limit failure with reset
`now` + the `Retry-After` hint. -/
def safeFetchWebometrics (name : String) (calls : List ℚ) (now : ℚ) (outcome : WebOutcome) :
    Except RateLimitErr (Option WebometricsData) × List ℚ × ℕ :=
  match checkRateLimit .webometrics calls now with
  | .error e => (.error e, calls, 0)
  | .ok _ =>
    match outcome with
    | .http200 len =>
        (.ok (some ⟨"https://www.webometrics.info/en/search/site/" ++ name, "success", len,
          "Scraped from Webometrics website"⟩), addCall calls now, 1)
    | .http429 retryAfter =>
        (.error ⟨.webometrics, now + retryAfter,
          "HTTP 429: Retry after " ++ toString retryAfter ++ " seconds"⟩,
          addCall calls now, 1)
    | .httpOtherStatus => (.ok none, addCall calls now, 1)
    | .netError => (.ok none, addCall calls now, 1)

/-- C3: per fetch attempt, budget consumption.  When the rate-limit check
passes, the Google and Webometrics fetchers record exactly one call for
every external outcome, and the Wikipedia fetcher records exactly one call
for success, disambiguation (either retry outcome) and page-not-found — but
records *zero* calls when `wikipedia.page` raises any other exception (the
outer generic handler returns without recording), so such a failed attempt
consumes no budget. -/
theorem safeFetchWikipedia_generic_error_records_zero :
    (safeFetchWikipedia "Test University" [] 0 WikiOutcome.otherError).2.2 = 0 ∧
    (∀ s u : String, (safeFetchWikipedia "Test University" [] 0 (WikiOutcome.success s u)).2.2 = 1) ∧
    (∀ s u f : String,
      (safeFetchWikipedia "Test University" [] 0 (WikiOutcome.disambigRetryOk s u f)).2.2 = 1) ∧
    (safeFetchWikipedia "Test University" [] 0 WikiOutcome.disambigRetryFail).2.2 = 1 ∧
    (safeFetchWikipedia "Test University" [] 0 WikiOutcome.pageError).2.2 = 1 ∧
    (∀ oc : WebOutcome, (safeFetchWebometrics "Test University" [] 0 oc).2.2 = 1) ∧
    (∀ oc : GoogleOutcome, (safeGoogleSearch [] 0 oc).2.2 = 1) := by
  have hwiki : checkRateLimit .wikipedia [] 0 = .ok () := by
    norm_num [checkRateLimit, rateLimits, windowCount, List.filter]
  have hweb : checkRateLimit .webometrics [] 0 = .ok () := by
    norm_num [checkRateLimit, rateLimits, windowCount, List.filter]
  have hgoo : checkRateLimit .googleSearch [] 0 = .ok () := by
    norm_num [checkRateLimit, rateLimits, windowCount, List.filter]
  refine ⟨?_, ?_, ?_, ?_, ?_, ?_, ?_⟩
  · simp [safeFetchWikipedia, hwiki]
  · intro s u; simp [safeFetchWikipedia, hwiki]
  · intro s u f; simp [safeFetchWikipedia, hwiki]
  · simp [safeFetchWikipedia, hwiki]
  · simp [safeFetchWikipedia, hwiki]
  · intro oc; cases oc <;> simp [safeFetchWebometrics, hweb]
  · intro oc; cases oc <;> simp [safeGoogleSearch, hgoo]

/-- One entry of the out-of-band `rate_limit_info` list produced during
aggregation: a `get_api_status` snapshot, a structured rate-limited note, a
static-ranking-merge note, or a cache-hit marker. -/
inductive RateEntry where
  | apiStatus (api : String) (callsLastMinute callsLastHour callsLastDay : ℕ)
  | rateLimited (api : String) (resetTime : ℚ) (message : String)
  | internalCache (api : String)
  | cacheHit (timestamp : ℚ)
deriving DecidableEq

/-- `true` iff the entry is a structured rate-limited note. -/
def RateEntry.isRateLimitedNote : RateEntry → Bool
  | .rateLimited _ _ _ => true
  | _ => false

/-- Result of the Google-search section of
`RateLimitedDataFetcher.fetch_all_data`: collected per-query results, the
rate-info entries appended, the final call log, and how many queries were
attempted before the loop ended. -/
structure GoogleSection where
  googleResults : List (String × List String)
  rateInfo : List RateEntry
  calls : List ℚ
  processed : ℕ
deriving DecidableEq

/-- The Google-search loop of `fetch_all_data`: for each query, run
`safe_google_search`; keep non-empty results; append a `get_api_status`
snapshot; on a `RateLimitExceededException` escaping the fetcher, append a
structured rate-limited note and `break` out of the loop. -/
def fetchAllGoogle (now : ℚ) (queryOutcomes : List (String × GoogleOutcome))
    (calls : List ℚ) : GoogleSection :=
  match queryOutcomes with
  | [] => ⟨[], [], calls, 0⟩
  | (q, oc) :: rest =>
    match safeGoogleSearch calls now oc with
    | (.error e, calls1, _) =>
        ⟨[], [RateEntry.rateLimited "google_search" e.resetTime
            ("Rate limit exceeded for " ++ APIType.googleSearch.value)], calls1, 1⟩
    | (.ok results, calls1, _) =>
        let entry := RateEntry.apiStatus "google_search" (windowCount calls1 now 60)
          (windowCount calls1 now 3600) (windowCount calls1 now 86400)
        let restR := fetchAllGoogle now rest calls1
        ⟨(if results.isEmpty then restR.googleResults else (q, results) :: restR.googleResults),
         entry :: restR.rateInfo, restR.calls, restR.processed + 1⟩

/-- C4: with the Google minute budget exhausted (10 logged calls inside the
minute window), `check_rate_limit` fails — yet `safe_google_search` swallows
that failure in its generic handler, *records another call*, and returns an
empty result instead of propagating; consequently the aggregator's
rate-limited handler and its `break` never run: all three queries of the
multi-query sequence are still attempted, three more calls are recorded
(log grows to 13), and no rate-limited note reaches the out-of-band list. -/
theorem safeGoogleSearch_swallows_rate_limit :
    checkRateLimit .googleSearch (List.replicate 10 (0 : ℚ)) 0 =
      .error ⟨.googleSearch, 0 + 60 * (rateLimits APIType.googleSearch).resetIntervalMinutes,
        "Minute limit: " ++ toString (rateLimits APIType.googleSearch).requestsPerMinute ++ " calls"⟩ ∧
    safeGoogleSearch (List.replicate 10 (0 : ℚ)) 0 (GoogleOutcome.http200 ["http://example.org/a"]) =
      (.ok [], addCall (List.replicate 10 (0 : ℚ)) 0, 1) ∧
    (fetchAllGoogle 0
        [("q1", GoogleOutcome.http200 ["http://example.org/a"]),
         ("q2", GoogleOutcome.http200 ["http://example.org/a"]),
         ("q3", GoogleOutcome.http200 ["http://example.org/a"])]
        (List.replicate 10 (0 : ℚ))).processed = 3 ∧
    (fetchAllGoogle 0
        [("q1", GoogleOutcome.http200 ["http://example.org/a"]),
         ("q2", GoogleOutcome.http200 ["http://example.org/a"]),
         ("q3", GoogleOutcome.http200 ["http://example.org/a"])]
        (List.replicate 10 (0 : ℚ))).googleResults = [] ∧
    (fetchAllGoogle 0
        [("q1", GoogleOutcome.http200 ["http://example.org/a"]),
         ("q2", GoogleOutcome.http200 ["http://example.org/a"]),
         ("q3", GoogleOutcome.http200 ["http://example.org/a"])]
        (List.replicate 10 (0 : ℚ))).rateInfo.all (fun e => !e.isRateLimitedNote) = true ∧
    (fetchAllGoogle 0
        [("q1", GoogleOutcome.http200 ["http://example.org/a"]),
         ("q2", GoogleOutcome.http200 ["http://example.org/a"]),
         ("q3", GoogleOutcome.http200 ["http://example.org/a"])]
        (List.replicate 10 (0 : ℚ))).calls.length = 13 := by
  have h10 : checkRateLimit .googleSearch (List.replicate 10 (0 : ℚ)) 0 =
      .error ⟨.googleSearch, 0 + 60 * (rateLimits APIType.googleSearch).resetIntervalMinutes,
        "Minute limit: " ++ toString (rateLimits APIType.googleSearch).requestsPerMinute ++ " calls"⟩ := by
    rw [checkRateLimit,
      if_pos (by norm_num [rateLimits, windowCount, List.filter, List.replicate]),
      getResetTime_minute]
  have hadd : addCall (List.replicate 10 (0 : ℚ)) 0 = List.replicate 11 (0 : ℚ) := by
    norm_num [addCall, List.filter, List.replicate]
  have h11 : checkRateLimit .googleSearch (List.replicate 11 (0 : ℚ)) 0 ≠ .ok () := by
    rw [checkRateLimit,
      if_pos (by norm_num [rateLimits, windowCount, List.filter, List.replicate])]
    simp
  have hadd11 : addCall (List.replicate 11 (0 : ℚ)) 0 = List.replicate 12 (0 : ℚ) := by
    norm_num [addCall, List.filter, List.replicate]
  have h12 : checkRateLimit .googleSearch (List.replicate 12 (0 : ℚ)) 0 ≠ .ok () := by
    rw [checkRateLimit,
      if_pos (by norm_num [rateLimits, windowCount, List.filter, List.replicate])]
    simp
  have hadd12 : addCall (List.replicate 12 (0 : ℚ)) 0 = List.replicate 13 (0 : ℚ) := by
    norm_num [addCall, List.filter, List.replicate]
  have hsg : ∀ oc : GoogleOutcome, safeGoogleSearch (List.replicate 10 (0 : ℚ)) 0 oc =
      (.ok [], addCall (List.replicate 10 (0 : ℚ)) 0, 1) := by
    intro oc; rw [safeGoogleSearch.eq_def, h10]
  have hsg11 : ∀ oc : GoogleOutcome, safeGoogleSearch (List.replicate 11 (0 : ℚ)) 0 oc =
      (.ok [], addCall (List.replicate 11 (0 : ℚ)) 0, 1) := by
    intro oc
    rw [safeGoogleSearch.eq_def]
    cases hh : checkRateLimit .googleSearch (List.replicate 11 (0 : ℚ)) 0 with
    | error e => rfl
    | ok u => exact absurd (by rw [hh]) h11
  have hsg12 : ∀ oc : GoogleOutcome, safeGoogleSearch (List.replicate 12 (0 : ℚ)) 0 oc =
      (.ok [], addCall (List.replicate 12 (0 : ℚ)) 0, 1) := by
    intro oc
    rw [safeGoogleSearch.eq_def]
    cases hh : checkRateLimit .googleSearch (List.replicate 12 (0 : ℚ)) 0 with
    | error e => rfl
    | ok u => exact absurd (by rw [hh]) h12
  have hloop : fetchAllGoogle 0
      [("q1", GoogleOutcome.http200 ["http://example.org/a"]),
       ("q2", GoogleOutcome.http200 ["http://example.org/a"]),
       ("q3", GoogleOutcome.http200 ["http://example.org/a"])]
      (List.replicate 10 (0 : ℚ)) =
      ⟨[],
       [RateEntry.apiStatus "google_search" 11 11 11,
        RateEntry.apiStatus "google_search" 12 12 12,
        RateEntry.apiStatus "google_search" 13 13 13],
       List.replicate 13 (0 : ℚ), 3⟩ := by
    simp only [fetchAllGoogle, hsg, hadd, hsg11, hadd11, hsg12, hadd12, List.isEmpty]
    norm_num [windowCount, List.filter, List.replicate]
  refine ⟨h10, hsg _, ?_, ?_, ?_, ?_⟩ <;>
    rw [hloop] <;> norm_num [RateEntry.isRateLimitedNote, List.all, List.replicate]

/-- `round1` is monotone. -/
theorem round1_mono {x y : ℚ} (h : x ≤ y) : round1 x ≤ round1 y := by
  unfold round1
  have hr : round (10 * x) ≤ round (10 * y) := by
    rw [round_eq, round_eq]
    exact Int.floor_mono (by linarith)
  have hc : ((round (10 * x) : ℤ) : ℚ) ≤ ((round (10 * y) : ℤ) : ℚ) := Int.cast_le.mpr hr
  linarith

/-- `round1` fixes a value whenever `round1 b = b`; upper-bound transport. -/
theorem round1_le_of_fix {x b : ℚ} (hb : round1 b = b) (h : x ≤ b) : round1 x ≤ b :=
  hb ▸ round1_mono h

/-- Lower-bound transport through `round1`. -/
theorem le_round1_of_fix {x b : ℚ} (hb : round1 b = b) (h : b ≤ x) : b ≤ round1 x :=
  hb ▸ round1_mono h

/-- `UniversityRankingSystem.classify_university_type` (the basic variant,
used for the type adjustment of the real-data scoring path and for the
result record). -/
def classifyUniversityType (name : String) : String :=
  if strContainsAny (strLower name) ["business school", "medical school", "law school"] then
    "SPECIALIST_SCHOOL"
  else if strContainsAny (strLower name) ["college", "community college", "polytechnic"] then
    "COLLEGE_POLYTECHNIC"
  else if strContainsAny (strLower name) ["technical", "applied", "technology"] then
    "APPLIED_UNIVERSITY"
  else if strContains (strLower name) "university" then
    if strContainsAny (strLower name) ["research", "institute", "tech"] then
      "RESEARCH_UNIVERSITY"
    else "TEACHING_UNIVERSITY"
  else "TEACHING_UNIVERSITY"

/-- `classify_university_type_by_name` (the enhanced variant used by
`estimate_scores`); takes the already-lowercased name. -/
def classifyUniversityTypeByName (nameLower : String) : String :=
  if strContainsAny nameLower ["business school", "medical school", "law school",
      "dental school", "nursing school", "art school"] then
    "SPECIALIST_SCHOOL"
  else if strContainsAny nameLower ["community college", "technical college",
      "vocational college", "career college"] then
    "COLLEGE_POLYTECHNIC"
  else if strContainsAny nameLower ["college", "polytechnic", "institute of technology"] then
    "COLLEGE_POLYTECHNIC"
  else if strContainsAny nameLower ["technical", "applied", "technology", "engineering"] then
    if strContains nameLower "university" then "APPLIED_UNIVERSITY" else "COLLEGE_POLYTECHNIC"
  else if strContains nameLower "university" then
    if strContainsAny nameLower ["research", "institute", "tech", "polytechnic",
        "state", "national", "federal"] then
      "RESEARCH_UNIVERSITY"
    else "TEACHING_UNIVERSITY"
  else "TEACHING_UNIVERSITY"

/-- `_get_base_scores_by_type`'s per-type baseline table (default:
teaching university). -/
def typeBaseScores (uniType : String) : Scores :=
  if uniType = "RESEARCH_UNIVERSITY" then ⟨18, 17, 15, 11, 8, 4⟩
  else if uniType = "TEACHING_UNIVERSITY" then ⟨12, 15, 14, 11, 7, 3⟩
  else if uniType = "COLLEGE_POLYTECHNIC" then ⟨6, 16, 16, 10, 6, 2⟩
  else if uniType = "APPLIED_UNIVERSITY" then ⟨10, 18, 17, 11, 7, 3⟩
  else if uniType = "SPECIALIST_SCHOOL" then ⟨14, 19, 16, 11, 7, 3⟩
  else ⟨12, 15, 14, 11, 7, 3⟩

/-- `self.country_multipliers` of pkUniRankBot.py, in insertion order. -/
def countryMultipliers : List (String × ℚ) :=
  [("USA", 1.2), ("UK", 1.15),
   ("CANADA", 1.1), ("CAN", 1.1), ("AUSTRALIA", 1.1), ("AUS", 1.1),
   ("GERMANY", 1.1), ("DEU", 1.1), ("SWITZERLAND", 1.15), ("CHE", 1.15),
   ("SWEDEN", 1.05), ("SWE", 1.05), ("NETHERLANDS", 1.05), ("NLD", 1.05),
   ("DENMARK", 1.05), ("DNK", 1.05), ("FINLAND", 1.05), ("FIN", 1.05),
   ("NORWAY", 1.05), ("NOR", 1.05),
   ("FRANCE", 1.0), ("FRA", 1.0), ("ITALY", 0.95), ("ITA", 0.95),
   ("SPAIN", 0.95), ("ESP", 0.95), ("PORTUGAL", 0.9), ("PRT", 0.9),
   ("GREECE", 0.9), ("GRC", 0.9),
   ("JAPAN", 1.05), ("JPN", 1.05), ("SOUTH KOREA", 1.05), ("KOR", 1.05),
   ("SINGAPORE", 1.1), ("SGP", 1.1), ("HONG KONG", 1.1), ("HKG", 1.1),
   ("CHINA", 0.9), ("CHN", 0.9), ("INDIA", 0.85), ("IND", 0.85),
   ("BRAZIL", 0.85), ("BRA", 0.85), ("RUSSIA", 0.85), ("RUS", 0.85),
   ("SOUTH AFRICA", 0.85), ("ZAF", 0.85), ("MEXICO", 0.85), ("MEX", 0.85),
   ("IRELAND", 1.0), ("IRL", 1.0), ("NEW ZEALAND", 1.0), ("NZL", 1.0),
   ("NEWZEALAND", 1.0),
   ("GLOBAL", 1.0)]

/-- Python `dict.get(key, default)` on an insertion-ordered table. -/
def dictGet (table : List (String × ℚ)) (key : String) (dflt : ℚ) : ℚ :=
  match table.find? (fun e => e.1 == key) with
  | some e => e.2
  | none => dflt

/-- `_get_country_multiplier`: exact key first, then the first table entry
related to the input by substring containment in either direction, else 1. -/
def getCountryMultiplier (countryUpper : String) : ℚ :=
  match countryMultipliers.find? (fun e => e.1 == countryUpper) with
  | some e => e.2
  | none =>
    match countryMultipliers.find?
        (fun e => strContains e.1 countryUpper || strContains countryUpper e.1) with
    | some e => e.2
    | none => 1.0

/-- `_apply_name_pattern_adjustments`: first matching rule only. -/
def applyNamePatternAdjustments (nameLower : String) (s : Scores) : Scores :=
  if strContainsAny nameLower ["harvard", "stanford", "mit", "massachusetts institute",
      "oxford", "cambridge", "caltech", "princeton", "yale"] then
    ⟨25, 24, 22, 14, 10, 5⟩
  else if strContainsAny nameLower ["columbia", "cornell", "dartmouth", "brown", "upenn",
      "imperial college", "university college london", "eth zurich"] then
    ⟨24, 23, 21, 13, 9, 5⟩
  else if strContainsAny nameLower ["university of california", "ucla", "uc berkeley",
      "umich", "university of michigan", "university of texas", "ut austin"] then
    ⟨22, 21, 19, 12, 8, 4⟩
  else if strContains nameLower "state university" || strContains nameLower "state uni" then
    ⟨s.academic + 3, s.graduate, s.roi + 2, s.fsr, s.transparency + 1, s.visibility + 1⟩
  else if strContains nameLower "university" && !strContains nameLower "state" then
    ⟨s.academic + 2, s.graduate, s.roi, s.fsr, s.transparency, s.visibility + 1⟩
  else if strContains nameLower "college" && !strContains nameLower "university" then
    ⟨s.academic, s.graduate + 3, s.roi + 2, s.fsr + 2, s.transparency, s.visibility⟩
  else if strContainsAny nameLower ["international", "global", "world"] then
    ⟨s.academic, s.graduate, s.roi, s.fsr, s.transparency + 1, s.visibility + 1⟩
  else s

/-- One nibble of the md5-derived integer, mapped linearly to `[-3, 3]`
(`_add_meaningful_variation`'s per-parameter variation before scaling). -/
def nibbleVariation (hashInt : ℕ) (i : ℕ) : ℚ :=
  (((hashInt >>> (i * 4)) % 16 : ℕ) : ℚ) / 15 * 6 - 3

/-- `_add_meaningful_variation`: nibble `i` of the stable name hash perturbs
field `i` (in `self.parameters` insertion order), with academic/graduate
scaled 1.5× and transparency/visibility scaled 0.5×. -/
def addMeaningfulVariation (hashInt : ℕ) (s : Scores) : Scores :=
  ⟨s.academic + nibbleVariation hashInt 0 * 1.5,
   s.graduate + nibbleVariation hashInt 1 * 1.5,
   s.roi + nibbleVariation hashInt 2,
   s.fsr + nibbleVariation hashInt 3,
   s.transparency + nibbleVariation hashInt 4 * 0.5,
   s.visibility + nibbleVariation hashInt 5 * 0.5⟩

/-- `_ensure_score_bounds`: clamp every field to `[0, its max]`. -/
def ensureScoreBounds (s : Scores) : Scores :=
  ⟨max 0 (min 25 s.academic), max 0 (min 25 s.graduate), max 0 (min 20 s.roi),
   max 0 (min 15 s.fsr), max 0 (min 10 s.transparency), max 0 (min 5 s.visibility)⟩

/-- Round every field to one decimal (`{k: round(v, 1) ...}`). -/
def roundScores (s : Scores) : Scores :=
  ⟨round1 s.academic, round1 s.graduate, round1 s.roi,
   round1 s.fsr, round1 s.transparency, round1 s.visibility⟩

/-- `UniversityRankingSystem.estimate_scores` (pkUniRankBot.py): the
heuristic-estimation path.  `hashInt` stands for
`int(hashlib.md5(name_lower.encode()).hexdigest()[:8], 16)` — a fixed pure
function of the lowercased name, no RNG and no clock. -/
def estimateScores (hashInt : String → ℕ) (name country : String) : Scores :=
  let nameLower := strLower name
  let countryUpper := if country = "" then "GLOBAL" else (strUpper country).trim
  let baseScores := typeBaseScores (classifyUniversityTypeByName nameLower)
  let countryMult := getCountryMultiplier countryUpper
  let adjusted := applyNamePatternAdjustments nameLower baseScores
  let multiplied : Scores :=
    ⟨min 25 (adjusted.academic * countryMult), min 25 (adjusted.graduate * countryMult),
     min 20 (adjusted.roi * countryMult), min 15 (adjusted.fsr * countryMult),
     adjusted.transparency, adjusted.visibility⟩
  let varied := addMeaningfulVariation (hashInt nameLower) multiplied
  roundScores (ensureScoreBounds varied)

/-- `self.country_multipliers` of pkWAUniRankBot.py (mixed-case keys, exact
`dict.get` lookup), in insertion order. -/
def countryMultipliersWA : List (String × ℚ) :=
  [("USA", 1.2), ("UK", 1.15), ("Canada", 1.1), ("Australia", 1.1),
   ("Germany", 1.1), ("Switzerland", 1.15), ("Singapore", 1.1),
   ("Japan", 1.05), ("Netherlands", 1.05), ("Sweden", 1.05),
   ("France", 1.0), ("Italy", 0.95), ("Spain", 0.95),
   ("China", 0.9), ("India", 0.85), ("Brazil", 0.85),
   ("Russia", 0.85), ("South Africa", 0.85),
   ("Ireland", 1.0), ("NewZealand", 1.0), ("New Zealand", 1.0)]

/-- `UniversityRankingSystem.estimate_scores` of pkWAUniRankBot.py: the same
heuristic path in the near-duplicate implementation.  `noise i` stands for
the i-th `np.random.uniform` draw of the estimation-error loop (fields in
insertion order; the draw range is ±0.5 for transparency/visibility and ±2
for the others) — a fresh global-RNG value on every call. -/
def estimateScoresWA (noise : ℕ → ℚ) (name country : String) : Scores :=
  let nameLower := strLower name
  let countryUpper := if country = "" then "GLOBAL" else strUpper country
  let base : Scores :=
    if strContains nameLower "mit" || strContains nameLower "massachusetts institute" then
      ⟨24, 23, 22, 14, 9, 5⟩
    else if strContains nameLower "harvard" then ⟨25, 24, 20, 13, 10, 5⟩
    else if strContains nameLower "stanford" then ⟨24, 23, 21, 14, 9, 5⟩
    else if strContains nameLower "oxford" || strContains nameLower "cambridge" then
      ⟨25, 24, 19, 14, 10, 5⟩
    else if strContains nameLower "university" && strContains nameLower "state" then
      ⟨15, 15, 16, 11, 9, 4⟩
    else if strContains nameLower "university" then ⟨18, 15, 14, 11, 8, 4⟩
    else if strContains nameLower "college" then ⟨8, 17, 16, 12, 7, 3⟩
    else ⟨12, 15, 14, 11, 7, 3⟩
  let mult := dictGet countryMultipliersWA countryUpper 1.0
  let multiplied : Scores :=
    if countryUpper ≠ "GLOBAL" then
      ⟨min 25 (base.academic * mult), min 25 (base.graduate * mult),
       min 20 (base.roi * mult), min 15 (base.fsr * mult),
       base.transparency, base.visibility⟩
    else base
  roundScores
    ⟨max 0 (min 25 (multiplied.academic + noise 0)),
     max 0 (min 25 (multiplied.graduate + noise 1)),
     max 0 (min 20 (multiplied.roi + noise 2)),
     max 0 (min 15 (multiplied.fsr + noise 3)),
     max 0 (min 10 (multiplied.transparency + noise 4)),
     max 0 (min 5 (multiplied.visibility + noise 5))⟩

/-- C8 counterexample: in pkWAUniRankBot.py the heuristic perturbation is a
fresh `np.random.uniform` draw, not a function of the name — two evaluations
of the same ("Generic University", "USA") pair under two valid RNG draw
sequences (all zeros vs. all 0.4, both inside every stated draw range)
return different score vectors. -/
theorem estimateScoresWA_depends_on_rng :
    estimateScoresWA (fun _ => 0) "Generic University" "USA" =
      ⟨21.6, 18, 16.8, 13.2, 8, 4⟩ ∧
    estimateScoresWA (fun _ => 0.4) "Generic University" "USA" =
      ⟨22, 18.4, 17.2, 13.6, 8.4, 4.4⟩ ∧
    (⟨21.6, 18, 16.8, 13.2, 8, 4⟩ : Scores) ≠ ⟨22, 18.4, 17.2, 13.6, 8.4, 4.4⟩ ∧
    ((-2 : ℚ) ≤ 0 ∧ (0 : ℚ) ≤ 2 ∧ (-0.5 : ℚ) ≤ 0 ∧ (0 : ℚ) ≤ 0.5) ∧
    ((-2 : ℚ) ≤ 0.4 ∧ (0.4 : ℚ) ≤ 2 ∧ (-0.5 : ℚ) ≤ 0.4 ∧ (0.4 : ℚ) ≤ 0.5) := by
  have c1 : (strContains (strLower "Generic University") "mit" ||
      strContains (strLower "Generic University") "massachusetts institute") = false := by decide
  have c2 : strContains (strLower "Generic University") "harvard" = false := by decide
  have c3 : strContains (strLower "Generic University") "stanford" = false := by decide
  have c4 : (strContains (strLower "Generic University") "oxford" ||
      strContains (strLower "Generic University") "cambridge") = false := by decide
  have c5 : (strContains (strLower "Generic University") "university" &&
      strContains (strLower "Generic University") "state") = false := by decide
  have c6 : strContains (strLower "Generic University") "university" = true := by decide
  have cst : strContains (strLower "Generic University") "state" = false := by decide
  have d1 : dictGet countryMultipliersWA "USA" 1.0 = 1.2 := rfl
  have d2 : strUpper "USA" = "USA" := by decide
  have h0 : ("USA" : String) ≠ "" := by decide
  have h1 : ("USA" : String) ≠ "GLOBAL" := by decide
  refine ⟨?_, ?_, ?_, by norm_num, by norm_num⟩
  · simp only [estimateScoresWA, c1, c2, c3, c4, c5, c6, cst, d1, d2, h0, h1,
      Bool.false_eq_true, if_false, if_true, ite_true, ite_false, ne_eq, not_false_iff]
    norm_num [roundScores, round1, min_def, max_def, Scores.mk.injEq]
  · simp only [estimateScoresWA, c1, c2, c3, c4, c5, c6, cst, d1, d2, h0, h1,
      Bool.false_eq_true, if_false, if_true, ite_true, ite_false, ne_eq, not_false_iff]
    norm_num [roundScores, round1, min_def, max_def, Scores.mk.injEq]
  · intro h
    rw [Scores.mk.injEq] at h
    norm_num at h

/-- C8 (amended): in pkUniRankBot.py the heuristic path is a pure function
of the lowercased name and the country — for any stable hash function (the
source uses md5 of the lowercased name), two names with equal lowercase
forms and the same country yield identical score vectors; no wall-clock
entropy or global RNG is involved (none appears in the embedding). -/
theorem estimateScores_pure_in_lowercased_name (hashInt : String → ℕ)
    (n1 n2 country : String) (h : strLower n1 = strLower n2) :
    estimateScores hashInt n1 country = estimateScores hashInt n2 country := by
  simp only [estimateScores, h]

/-- Witness for C8 at "Generic University" vs "GENERIC UNIVERSITY". -/
theorem estimateScores_pure_in_lowercased_name_witness :
    strLower "Generic University" = strLower "GENERIC UNIVERSITY" ∧
    estimateScores (fun _ => 2541098765) "Generic University" "USA" =
      estimateScores (fun _ => 2541098765) "GENERIC UNIVERSITY" "USA" :=
  ⟨by decide,
   estimateScores_pure_in_lowercased_name (fun _ => 2541098765)
     "Generic University" "GENERIC UNIVERSITY" "USA" (by decide)⟩

/-- The aggregated payload (`all_data` dict of `fetch_all_data` /
`fetch_real_data`): per-source fragments, the derived list of sources that
contributed non-empty data (the `data_sources_used` key, present only when
non-empty), and the static-ranking merges. -/
structure RealPayload where
  wikipedia : Option WikiData
  googleSearch : Option (List (String × List String))
  webometrics : Option WebometricsData
  dataSourcesUsed : List String
  qsRanking : Option ℚ
  theRanking : Option ℚ
deriving DecidableEq

/-- Python falsiness of the `all_data` dict: no key was ever written. -/
def RealPayload.isEmpty (p : RealPayload) : Bool :=
  p.wikipedia.isNone && p.googleSearch.isNone && p.webometrics.isNone &&
  p.dataSourcesUsed.isEmpty && p.qsRanking.isNone && p.theRanking.isNone

/-- Payload reports a top-10 QS rank. -/
def qsTop10 (p : RealPayload) : Bool :=
  match p.qsRanking with
  | some r => decide (r ≤ 10)
  | none => false

/-- Payload reports a THE rank in (10, 100]. -/
def theMid (p : RealPayload) : Bool :=
  match p.theRanking with
  | some r => decide (10 < r ∧ r ≤ 100)
  | none => false

/-- `load_qs_rankings`: the static QS table (lowercased name ↦ rank). -/
def qsRankingsTable : List (String × ℚ) :=
  [("massachusetts institute of technology", 1), ("university of cambridge", 2),
   ("university of oxford", 3), ("harvard university", 4), ("stanford university", 5),
   ("imperial college london", 6), ("california institute of technology", 7),
   ("university college london", 8), ("eth zurich", 9), ("university of chicago", 10)]

/-- `load_the_rankings`: the static THE table. -/
def theRankingsTable : List (String × ℚ) :=
  [("university of oxford", 1), ("harvard university", 2), ("university of cambridge", 3),
   ("stanford university", 4), ("massachusetts institute of technology", 5),
   ("california institute of technology", 6), ("princeton university", 7),
   ("university of california berkeley", 8), ("yale university", 9),
   ("imperial college london", 10)]

/-- The baseline score vector of `calculate_scores_from_real_data`. -/
def baselineReal : Scores := ⟨12, 15, 14, 11, 7, 3⟩

/-- QS-rank band adjustment of `calculate_scores_from_real_data`: four
bands overwrite academic/graduate/visibility. -/
def qsAdjust (qs : Option ℚ) (s : Scores) : Scores :=
  match qs with
  | none => s
  | some r =>
    if r ≤ 10 then ⟨25, 24, s.roi, s.fsr, s.transparency, 5⟩
    else if r ≤ 50 then ⟨22, 21, s.roi, s.fsr, s.transparency, 4.5⟩
    else if r ≤ 100 then ⟨20, 19, s.roi, s.fsr, s.transparency, 4⟩
    else if r ≤ 200 then ⟨18, 17, s.roi, s.fsr, s.transparency, 3.5⟩
    else s

/-- THE-rank band adjustment: top-10 raises academic/transparency to floors
via `max`; (10, 100] multiplies academic by 1.1 (combined with the current
value via `max`). -/
def theAdjust (the : Option ℚ) (s : Scores) : Scores :=
  match the with
  | none => s
  | some r =>
    if r ≤ 10 then
      ⟨max s.academic 24, s.graduate, s.roi, s.fsr, max s.transparency 9, s.visibility⟩
    else if r ≤ 100 then
      ⟨max s.academic (s.academic * 1.1), s.graduate, s.roi, s.fsr, s.transparency, s.visibility⟩
    else s

/-- The fixed research-vocabulary list. -/
def researchKeywords : List String :=
  ["research", "publication", "citation", "nobel", "faculty"]

/-- The fixed employment-vocabulary list. -/
def employKeywords : List String :=
  ["employment", "graduate", "career", "salary", "placement"]

/-- `sum(1 for keyword in keywords if keyword in summary)`. -/
def keywordCount (keywords : List String) (summary : String) : ℕ :=
  (keywords.filter (fun k => strContains summary k)).length

/-- Wikipedia-summary text-mining adjustment: ≥3 research hits add +3
academic (capped at 25), ≥2 employment hits add +2 graduate (capped). -/
def wikiAdjust (w : Option WikiData) (s : Scores) : Scores :=
  match w with
  | none => s
  | some wd =>
    let summary := strLower wd.summary
    ⟨(if 3 ≤ keywordCount researchKeywords summary then min 25 (s.academic + 3) else s.academic),
     (if 2 ≤ keywordCount employKeywords summary then min 25 (s.graduate + 2) else s.graduate),
     s.roi, s.fsr, s.transparency, s.visibility⟩

/-- Country-multiplier step of the real-data path: applied only when the
country string is non-empty, via exact `dict.get(country.upper(), 1.0)`,
min-capping academic/graduate/roi/fsr at their maxima. -/
def countryAdjustReal (country : String) (s : Scores) : Scores :=
  if country = "" then s
  else
    ⟨min 25 (s.academic * dictGet countryMultipliers (strUpper country) 1.0),
     min 25 (s.graduate * dictGet countryMultipliers (strUpper country) 1.0),
     min 20 (s.roi * dictGet countryMultipliers (strUpper country) 1.0),
     min 15 (s.fsr * dictGet countryMultipliers (strUpper country) 1.0),
     s.transparency, s.visibility⟩

/-- Institution-type adjustment of the real-data path (via the basic
`classify_university_type`). -/
def typeAdjustReal (name : String) (s : Scores) : Scores :=
  if classifyUniversityType name = "RESEARCH_UNIVERSITY" then
    ⟨min 25 (s.academic + 3), s.graduate, s.roi, s.fsr, s.transparency, s.visibility⟩
  else if classifyUniversityType name = "COLLEGE_POLYTECHNIC" then
    ⟨s.academic, min 25 (s.graduate + 2), min 20 (s.roi + 2), s.fsr, s.transparency, s.visibility⟩
  else s

/-- `EnhancedUniversityRankingSystem.calculate_scores_from_real_data`:
baseline, then QS bands, THE bands, Wikipedia text mining, country
multiplier, type adjustment, and a final per-field round to one decimal
(there is no final clamp on this path). -/
def calculateScoresFromRealData (name country : String) (p : RealPayload) : Scores :=
  roundScores (typeAdjustReal name (countryAdjustReal country
    (wikiAdjust p.wikipedia (theAdjust p.theRanking (qsAdjust p.qsRanking baselineReal)))))

/-- One entry of `load_university_database`. -/
structure DbEntry where
  country : String
  uniType : String
  scores : Scores
deriving DecidableEq

/-- `self.university_db` (pkUniRankBot.py), in insertion order:
lowercased name ↦ country, type, stored scores. -/
def universityDb : List (String × DbEntry) :=
  [("bryant university", ⟨"USA", "TEACHING_UNIVERSITY", ⟨12, 22, 16, 13, 8, 3⟩⟩),
   ("massachusetts institute of technology", ⟨"USA", "RESEARCH_UNIVERSITY", ⟨25, 24, 22, 14, 9, 5⟩⟩),
   ("harvard university", ⟨"USA", "RESEARCH_UNIVERSITY", ⟨25, 24, 20, 13, 10, 5⟩⟩),
   ("stanford university", ⟨"USA", "RESEARCH_UNIVERSITY", ⟨24, 23, 21, 14, 9, 5⟩⟩),
   ("university of toronto", ⟨"Canada", "RESEARCH_UNIVERSITY", ⟨22, 21, 18, 13, 9, 4⟩⟩),
   ("university of oxford", ⟨"UK", "RESEARCH_UNIVERSITY", ⟨25, 24, 19, 14, 10, 5⟩⟩),
   ("conestoga college", ⟨"Canada", "COLLEGE_POLYTECHNIC", ⟨4, 20, 18, 13, 7, 4⟩⟩),
   ("algonquin college", ⟨"Canada", "COLLEGE_POLYTECHNIC", ⟨4, 19, 17, 12, 6, 3⟩⟩),
   ("north dakota state university", ⟨"USA", "RESEARCH_UNIVERSITY", ⟨16, 15, 16, 11, 9, 4⟩⟩),
   ("university of tokyo", ⟨"Japan", "RESEARCH_UNIVERSITY", ⟨23, 21, 18, 13, 8, 4⟩⟩),
   ("university of sydney", ⟨"Australia", "RESEARCH_UNIVERSITY", ⟨21, 20, 17, 12, 8, 4⟩⟩),
   ("community college of philadelphia", ⟨"USA", "COLLEGE_POLYTECHNIC", ⟨3, 16, 18, 11, 5, 2⟩⟩),
   ("california institute of technology", ⟨"USA", "RESEARCH_UNIVERSITY", ⟨25, 24, 23, 14, 9, 5⟩⟩),
   ("university of cape town", ⟨"South Africa", "RESEARCH_UNIVERSITY", ⟨18, 17, 15, 11, 7, 3⟩⟩)]

/-- Database lookup by lowercased name. -/
def universityDbFind (nameLower : String) : Option DbEntry :=
  (universityDb.find? (fun e => e.1 == nameLower)).map (fun e => e.2)

/-- Scoring-path selection of `EnhancedUniversityRankingSystem.rank_university`:
real-data path when the payload is truthy and reports contributing sources;
otherwise the database entry's stored scores verbatim; otherwise the
heuristic estimate. -/
def selectScores (hashInt : String → ℕ) (name country : String) (p : RealPayload) : Scores :=
  if !p.isEmpty && !p.dataSourcesUsed.isEmpty then
    calculateScoresFromRealData name country p
  else
    match universityDbFind (strLower name) with
    | some entry => entry.scores
    | none => estimateScores hashInt name country

/-- Every multiplier in the pk country table is nonnegative, so is any
`dict.get` over it with default 1. -/
theorem dictGet_countryMultipliers_nonneg (key : String) :
    0 ≤ dictGet countryMultipliers key 1.0 := by
  unfold dictGet
  cases h : countryMultipliers.find? (fun e => e.1 == key) with
  | none => norm_num
  | some e =>
    have hm := List.mem_of_find?_eq_some h
    have hall : ∀ x ∈ countryMultipliers, (0 : ℚ) ≤ x.2 := by
      intro x hx
      fin_cases hx <;> norm_num
    exact hall e hm

/-- Rounding transports per-field interval bounds whose endpoints are
`round1` fixed points. -/
theorem roundScores_inBounds_of (s : Scores)
    (h1 : 0 ≤ s.academic ∧ s.academic ≤ 25) (h2 : 0 ≤ s.graduate ∧ s.graduate ≤ 25)
    (h3 : 0 ≤ s.roi ∧ s.roi ≤ 20) (h4 : 0 ≤ s.fsr ∧ s.fsr ≤ 15)
    (h5 : 0 ≤ s.transparency ∧ s.transparency ≤ 10)
    (h6 : 0 ≤ s.visibility ∧ s.visibility ≤ 5) :
    ScoresInBounds (roundScores s) := by
  unfold ScoresInBounds roundScores parametersMax
  exact ⟨⟨le_round1_of_fix (by norm_num [round1]) h1.1, round1_le_of_fix (by norm_num [round1]) h1.2⟩,
    ⟨le_round1_of_fix (by norm_num [round1]) h2.1, round1_le_of_fix (by norm_num [round1]) h2.2⟩,
    ⟨le_round1_of_fix (by norm_num [round1]) h3.1, round1_le_of_fix (by norm_num [round1]) h3.2⟩,
    ⟨le_round1_of_fix (by norm_num [round1]) h4.1, round1_le_of_fix (by norm_num [round1]) h4.2⟩,
    ⟨le_round1_of_fix (by norm_num [round1]) h5.1, round1_le_of_fix (by norm_num [round1]) h5.2⟩,
    ⟨le_round1_of_fix (by norm_num [round1]) h6.1, round1_le_of_fix (by norm_num [round1]) h6.2⟩⟩

/-- The heuristic path always lands in bounds: `_ensure_score_bounds`
clamps every field and rounding preserves the clamp. -/
theorem estimateScores_inBounds (hashInt : String → ℕ) (name country : String) :
    ScoresInBounds (estimateScores hashInt name country) := by
  simp only [estimateScores]
  apply roundScores_inBounds_of <;>
    unfold ensureScoreBounds <;>
    constructor <;>
    first
      | exact le_max_left _ _
      | exact max_le (by norm_num) (min_le_left _ _)

/-- Stage bound: after the QS-band step on the baseline. -/
theorem qsAdjust_baseline_bounds (qs : Option ℚ) :
    (0 ≤ (qsAdjust qs baselineReal).academic ∧ (qsAdjust qs baselineReal).academic ≤ 25) ∧
    (0 ≤ (qsAdjust qs baselineReal).graduate ∧ (qsAdjust qs baselineReal).graduate ≤ 24) ∧
    (qsAdjust qs baselineReal).roi = 14 ∧ (qsAdjust qs baselineReal).fsr = 11 ∧
    (qsAdjust qs baselineReal).transparency = 7 ∧
    (0 ≤ (qsAdjust qs baselineReal).visibility ∧ (qsAdjust qs baselineReal).visibility ≤ 5) := by
  cases qs with
  | none => simp only [qsAdjust, baselineReal]; norm_num
  | some r => simp only [qsAdjust, baselineReal]; split_ifs <;> norm_num

/-- Stage bound: the THE-band step keeps academic within 25 provided a
mid-band THE rank implies the incoming academic is at most 22 (the only way
the 1.1 multiplication could overflow is from the top-10-QS value 25), and
keeps transparency within 9. -/
theorem theAdjust_bounds (the : Option ℚ) (s : Scores)
    (ha0 : 0 ≤ s.academic) (ha : s.academic ≤ 25)
    (hmid : (∃ r, the = some r ∧ 10 < r ∧ r ≤ 100) → s.academic ≤ 22)
    (ht0 : 0 ≤ s.transparency) (ht : s.transparency ≤ 9) :
    (0 ≤ (theAdjust the s).academic ∧ (theAdjust the s).academic ≤ 25) ∧
    (theAdjust the s).graduate = s.graduate ∧ (theAdjust the s).roi = s.roi ∧
    (theAdjust the s).fsr = s.fsr ∧
    (0 ≤ (theAdjust the s).transparency ∧ (theAdjust the s).transparency ≤ 9) ∧
    (theAdjust the s).visibility = s.visibility := by
  cases the with
  | none => simp only [theAdjust]; exact ⟨⟨ha0, ha⟩, (by trivial), (by trivial), (by trivial), ⟨ht0, ht⟩, (by trivial)⟩
  | some r =>
    simp only [theAdjust]
    split_ifs with h1 h2
    · exact ⟨⟨le_trans ha0 (le_max_left _ _), max_le ha (by norm_num)⟩, (by trivial), (by trivial),
        (by trivial), ⟨le_trans ht0 (le_max_left _ _), max_le ht le_rfl⟩, (by trivial)⟩
    · have h22 : s.academic ≤ 22 := hmid ⟨r, rfl, lt_of_not_le h1, h2⟩
      exact ⟨⟨le_trans ha0 (le_max_left _ _), max_le ha (by linarith)⟩, (by trivial), (by trivial),
        (by trivial), ⟨ht0, ht⟩, (by trivial)⟩
    · exact ⟨⟨ha0, ha⟩, (by trivial), (by trivial), (by trivial), ⟨ht0, ht⟩, (by trivial)⟩

/-- Stage bound: the Wikipedia text-mining step caps its additions. -/
theorem wikiAdjust_bounds (w : Option WikiData) (s : Scores)
    (ha0 : 0 ≤ s.academic) (ha : s.academic ≤ 25)
    (hg0 : 0 ≤ s.graduate) (hg : s.graduate ≤ 25) :
    (0 ≤ (wikiAdjust w s).academic ∧ (wikiAdjust w s).academic ≤ 25) ∧
    (0 ≤ (wikiAdjust w s).graduate ∧ (wikiAdjust w s).graduate ≤ 25) ∧
    (wikiAdjust w s).roi = s.roi ∧ (wikiAdjust w s).fsr = s.fsr ∧
    (wikiAdjust w s).transparency = s.transparency ∧
    (wikiAdjust w s).visibility = s.visibility := by
  cases w with
  | none => simp only [wikiAdjust]; exact ⟨⟨ha0, ha⟩, ⟨hg0, hg⟩, (by trivial), (by trivial), (by trivial), (by trivial)⟩
  | some wd =>
    simp only [wikiAdjust]
    split_ifs <;>
      refine ⟨⟨?_, ?_⟩, ⟨?_, ?_⟩, (by trivial), (by trivial), (by trivial), (by trivial)⟩ <;>
      first
        | exact le_min (by norm_num) (by linarith)
        | exact min_le_left _ _
        | assumption

/-- Stage bound: the country-multiplier step of the real-data path. -/
theorem countryAdjustReal_bounds (country : String) (s : Scores)
    (ha : 0 ≤ s.academic ∧ s.academic ≤ 25) (hg : 0 ≤ s.graduate ∧ s.graduate ≤ 25)
    (hr : 0 ≤ s.roi ∧ s.roi ≤ 20) (hf : 0 ≤ s.fsr ∧ s.fsr ≤ 15) :
    (0 ≤ (countryAdjustReal country s).academic ∧ (countryAdjustReal country s).academic ≤ 25) ∧
    (0 ≤ (countryAdjustReal country s).graduate ∧ (countryAdjustReal country s).graduate ≤ 25) ∧
    (0 ≤ (countryAdjustReal country s).roi ∧ (countryAdjustReal country s).roi ≤ 20) ∧
    (0 ≤ (countryAdjustReal country s).fsr ∧ (countryAdjustReal country s).fsr ≤ 15) ∧
    (countryAdjustReal country s).transparency = s.transparency ∧
    (countryAdjustReal country s).visibility = s.visibility := by
  unfold countryAdjustReal
  split_ifs
  · exact ⟨ha, hg, hr, hf, rfl, rfl⟩
  · refine ⟨⟨?_, min_le_left _ _⟩, ⟨?_, min_le_left _ _⟩, ⟨?_, min_le_left _ _⟩,
      ⟨?_, min_le_left _ _⟩, rfl, rfl⟩ <;>
      exact le_min (by norm_num)
        (mul_nonneg (by linarith [ha.1, hg.1, hr.1, hf.1])
          (dictGet_countryMultipliers_nonneg _))

/-- Stage bound: the institution-type adjustment of the real-data path. -/
theorem typeAdjustReal_bounds (name : String) (s : Scores)
    (ha : 0 ≤ s.academic ∧ s.academic ≤ 25) (hg : 0 ≤ s.graduate ∧ s.graduate ≤ 25)
    (hr : 0 ≤ s.roi ∧ s.roi ≤ 20) :
    (0 ≤ (typeAdjustReal name s).academic ∧ (typeAdjustReal name s).academic ≤ 25) ∧
    (0 ≤ (typeAdjustReal name s).graduate ∧ (typeAdjustReal name s).graduate ≤ 25) ∧
    (0 ≤ (typeAdjustReal name s).roi ∧ (typeAdjustReal name s).roi ≤ 20) ∧
    (typeAdjustReal name s).fsr = s.fsr ∧
    (typeAdjustReal name s).transparency = s.transparency ∧
    (typeAdjustReal name s).visibility = s.visibility := by
  unfold typeAdjustReal
  split_ifs
  · exact ⟨⟨le_min (by norm_num) (by linarith [ha.1]), min_le_left _ _⟩, hg, hr, rfl, rfl, rfl⟩
  · exact ⟨ha, ⟨le_min (by norm_num) (by linarith [hg.1]), min_le_left _ _⟩,
      ⟨le_min (by norm_num) (by linarith [hr.1]), min_le_left _ _⟩, rfl, rfl, rfl⟩
  · exact ⟨ha, hg, hr, rfl, rfl, rfl⟩

/-- The real-data path lands in bounds for every payload that does not
combine a top-10 QS rank with a THE rank in (10, 100]. -/
theorem calculateScoresFromRealData_inBounds (name country : String) (p : RealPayload)
    (h : ¬(qsTop10 p = true ∧ theMid p = true)) :
    ScoresInBounds (calculateScoresFromRealData name country p) := by
  obtain ⟨ha1, hg1, hr1, hf1, ht1, hv1⟩ := qsAdjust_baseline_bounds p.qsRanking
  have hmid : (∃ r, p.theRanking = some r ∧ 10 < r ∧ r ≤ 100) →
      (qsAdjust p.qsRanking baselineReal).academic ≤ 22 := by
    rintro ⟨r, hrk, hr10, hr100⟩
    have htm : theMid p = true := by
      unfold theMid
      rw [hrk]
      simp only [decide_eq_true_eq]
      exact ⟨hr10, hr100⟩
    have hqf : qsTop10 p = false := by
      cases hq : qsTop10 p
      · rfl
      · exact absurd ⟨hq, htm⟩ h
    unfold qsTop10 at hqf
    cases hqr : p.qsRanking with
    | none => simp only [qsAdjust, baselineReal]; norm_num
    | some q =>
      rw [hqr] at hqf
      have hq10 : ¬ q ≤ 10 := by simpa using hqf
      simp only [qsAdjust, baselineReal]
      split_ifs with h1 h2 h3 h4 <;> first | exact absurd h1 hq10 | norm_num
  obtain ⟨ha2, hg2, hr2, hf2, ht2, hv2⟩ :=
    theAdjust_bounds p.theRanking _ ha1.1 ha1.2 hmid (by rw [ht1]; norm_num) (by rw [ht1]; norm_num)
  obtain ⟨ha3, hg3, hr3, hf3, ht3, hv3⟩ :=
    wikiAdjust_bounds p.wikipedia _ ha2.1 ha2.2 (by rw [hg2]; exact hg1.1)
      (by rw [hg2]; linarith [hg1.2])
  obtain ⟨ha4, hg4, hr4, hf4, ht4, hv4⟩ :=
    countryAdjustReal_bounds country _ ha3 hg3 (by rw [hr3, hr2, hr1]; norm_num)
      (by rw [hf3, hf2, hf1]; norm_num)
  obtain ⟨ha5, hg5, hr5, hf5, ht5, hv5⟩ := typeAdjustReal_bounds name _ ha4 hg4 hr4
  unfold calculateScoresFromRealData
  apply roundScores_inBounds_of
  · exact ha5
  · exact hg5
  · exact hr5
  · rw [hf5]; exact hf4
  · rw [ht5, ht4, ht3]; exact ⟨ht2.1, by linarith [ht2.2]⟩
  · rw [hv5, hv4, hv3, hv2]; exact hv1

/-- C6 (amended): the six declared maxima sum to exactly 100; the heuristic
path always yields every field in `[0, max]`; the real-data path does so for
every payload not combining a top-10 QS rank with a THE rank in (10, 100]
(a combination the built-in static tables never produce); the
known-institution path, by contrast, returns stored database scores
verbatim and is not covered (see the counterexample). -/
theorem scorePath_bounds (hashInt : String → ℕ) (name country : String) (p : RealPayload)
    (h : ¬(qsTop10 p = true ∧ theMid p = true)) :
    ScoresInBounds (estimateScores hashInt name country) ∧
    ScoresInBounds (calculateScoresFromRealData name country p) ∧
    parametersMax.academic + parametersMax.graduate + parametersMax.roi +
      parametersMax.fsr + parametersMax.transparency + parametersMax.visibility = 100 :=
  ⟨estimateScores_inBounds hashInt name country,
   calculateScoresFromRealData_inBounds name country p h,
   by norm_num [parametersMax]⟩

/-- Witness for C6 at a concrete name/country and the empty payload. -/
theorem scorePath_bounds_witness :
    ¬(qsTop10 ⟨none, none, none, [], none, none⟩ = true ∧
        theMid ⟨none, none, none, [], none, none⟩ = true) ∧
    (ScoresInBounds (estimateScores (fun _ => 0) "Test University" "USA") ∧
     ScoresInBounds (calculateScoresFromRealData "Test University" "USA"
       ⟨none, none, none, [], none, none⟩) ∧
     parametersMax.academic + parametersMax.graduate + parametersMax.roi +
       parametersMax.fsr + parametersMax.transparency + parametersMax.visibility = 100) :=
  ⟨by decide,
   scorePath_bounds (fun _ => 0) "Test University" "USA"
     ⟨none, none, none, [], none, none⟩ (by decide)⟩

/-- C6 counterexample: the known-institution path returns the stored MIT
scores verbatim — `roi = 22`, exceeding the declared roi maximum of 20 — so
the claim as stated fails on this reachable path (the database also stores
roi 21 for Stanford and roi 23 for Caltech). -/
theorem knownPath_mit_roi_exceeds_max :
    (selectScores (fun _ => 0) "Massachusetts Institute of Technology" "USA"
        ⟨none, none, none, [], none, none⟩).roi = 22 ∧
    parametersMax.roi = 20 ∧ ¬((22 : ℚ) ≤ 20) := by
  refine ⟨rfl, rfl, by norm_num⟩

/-- The clamp-then-round tail of the estimation branch always lands in
`[3, 15]`. -/
theorem round1_clamp_bounds (x : ℚ) :
    3 ≤ round1 (min 15 (max 3 x)) ∧ round1 (min 15 (max 3 x)) ≤ 15 :=
  ⟨le_round1_of_fix (by norm_num [round1]) (le_min (by norm_num) (le_max_left _ _)),
   round1_le_of_fix (by norm_num [round1]) (min_le_left _ _)⟩

/-- `UniversityRankingSystem.calculate_error_margin`.  `u1` stands for the
known-institution branch's `np.random.uniform(1.0, 3.0)` draw and `u2` for
the estimation branch's `np.random.uniform(-2.0, 2.0)` draw. -/
def calculateErrorMargin (name country : String) (dataSourcesUsed : List String)
    (u1 u2 : ℚ) : ℚ :=
  if (universityDbFind (strLower name)).isSome then round1 u1
  else
    let base1 : ℚ := if dataSourcesUsed.contains "wikipedia" then 5 else 10
    let base2 : ℚ := if 2 ≤ dataSourcesUsed.length then base1 * 0.7 else base1
    let base3 : ℚ :=
      if country = "" then base2
      else base2 / dictGet countryMultipliers (strUpper country) 1.0
    let base4 : ℚ :=
      if strContains (strLower name) "university" then base3 * 0.9
      else if strContains (strLower name) "college" then base3 * 1.1
      else base3
    round1 (min 15 (max 3 (base4 + u2)))

/-- The error-margin reduction in `rank_university`: when any source
contributed data, multiply by 0.7 and floor at 1. -/
def errorMarginFinal (name country : String) (dataSourcesUsed : List String)
    (u1 u2 : ℚ) : ℚ :=
  if dataSourcesUsed.isEmpty then calculateErrorMargin name country dataSourcesUsed u1 u2
  else max 1 (calculateErrorMargin name country dataSourcesUsed u1 u2 * 0.7)

/-- C9: for every name, country and contributing-source list, and every RNG
draw within its stated range, the error margin — after the 0.7 reduction
with floor 1.0 applied when any source contributed — lies in `[1, 15]`. -/
theorem errorMargin_in_range (name country : String) (dataSourcesUsed : List String)
    (u1 u2 : ℚ) (h1 : 1 ≤ u1) (h2 : u1 ≤ 3) (h3 : -2 ≤ u2) (h4 : u2 ≤ 2) :
    1 ≤ errorMarginFinal name country dataSourcesUsed u1 u2 ∧
    errorMarginFinal name country dataSourcesUsed u1 u2 ≤ 15 := by
  have he : 1 ≤ calculateErrorMargin name country dataSourcesUsed u1 u2 ∧
      calculateErrorMargin name country dataSourcesUsed u1 u2 ≤ 15 := by
    unfold calculateErrorMargin
    split_ifs with hdb
    · exact ⟨le_round1_of_fix (by norm_num [round1]) h1,
        le_trans (round1_le_of_fix (by norm_num [round1]) h2) (by norm_num)⟩
    all_goals
      exact ⟨le_trans (by norm_num) (round1_clamp_bounds _).1, (round1_clamp_bounds _).2⟩
  unfold errorMarginFinal
  split_ifs
  · exact he
  · refine ⟨le_max_left _ _, max_le (by norm_num) ?_⟩
    have := he.2
    linarith

/-- Witness for C9 at ("Test College", "", ["wikipedia"]) with draws
u1 = 2, u2 = 0. -/
theorem errorMargin_in_range_witness :
    ((1 : ℚ) ≤ 2 ∧ (2 : ℚ) ≤ 3 ∧ (-2 : ℚ) ≤ 0 ∧ (0 : ℚ) ≤ 2) ∧
    1 ≤ errorMarginFinal "Test College" "" ["wikipedia"] 2 0 ∧
    errorMarginFinal "Test College" "" ["wikipedia"] 2 0 ≤ 15 :=
  ⟨⟨by norm_num, by norm_num, by norm_num, by norm_num⟩,
   errorMargin_in_range "Test College" "" ["wikipedia"] 2 0
     (by norm_num) (by norm_num) (by norm_num) (by norm_num)⟩

/-- The in-process result cache `self.real_data_cache`: key ↦ (payload,
rate-info) in most-recently-written-first order. -/
def RDCache : Type := List (String × RealPayload × List RateEntry)

instance : DecidableEq RDCache := by
  unfold RDCache; infer_instance

/-- Dictionary membership/lookup on the cache. -/
def cacheLookup (cache : RDCache) (key : String) : Option (RealPayload × List RateEntry) :=
  (cache.find? (fun e => e.1 == key)).map (fun e => e.2)

/-- The cache key: `f"{university_name.lower()}_{country.lower()}"`. -/
def cacheKeyOf (name country : String) : String :=
  strLower name ++ "_" ++ strLower country

/-- Membership lookup in a static ranking table (`name_lower in self.qs_rankings`). -/
def tableLookup (table : List (String × ℚ)) (key : String) : Option ℚ :=
  (table.find? (fun e => e.1 == key)).map (fun e => e.2)

/-- The static-ranking merge step of `fetch_real_data`: set
`all_data['qs_ranking']` / `all_data['the_ranking']` on a lowercased-name
match and append the internal-cache notes. -/
def mergeStatic (name : String) (d : RealPayload × List RateEntry) :
    RealPayload × List RateEntry :=
  let d1 : RealPayload × List RateEntry :=
    match tableLookup qsRankingsTable (strLower name) with
    | some r => (⟨d.1.wikipedia, d.1.googleSearch, d.1.webometrics,
        d.1.dataSourcesUsed, some r, d.1.theRanking⟩,
        d.2 ++ [RateEntry.internalCache "qs_rankings"])
    | none => d
  match tableLookup theRankingsTable (strLower name) with
  | some r => (⟨d1.1.wikipedia, d1.1.googleSearch, d1.1.webometrics,
      d1.1.dataSourcesUsed, d1.1.qsRanking, some r⟩,
      d1.2 ++ [RateEntry.internalCache "the_rankings"])
  | none => d1

/-- `EnhancedUniversityRankingSystem.fetch_real_data`, parametric in the
downstream aggregation: `fetchAll` stands for
`self.data_fetcher.fetch_all_data(...)` as a transformer of the shared
rate-tracker state `σ` returning the fresh payload and rate-info.  On a
cache hit the cached payload is returned with a cache-hit marker appended to
the cached rate-info, `fetchAll` is never invoked and the tracker state is
untouched; on a miss, static QS/THE table matches are merged in, and the
result is cached iff the merged payload is non-empty (`if all_data:`). -/
def fetchRealData {σ : Type} (fetchAll : σ → RealPayload × List RateEntry × σ)
    (name country : String) (now : ℚ) (cache : RDCache) (s : σ) :
    RealPayload × List RateEntry × RDCache × σ :=
  match cacheLookup cache (cacheKeyOf name country) with
  | some (cachedData, cachedRateInfo) =>
      (cachedData, cachedRateInfo ++ [RateEntry.cacheHit now], cache, s)
  | none =>
      let res := fetchAll s
      let d2 := mergeStatic name (res.1, res.2.1)
      (d2.1, d2.2,
        (if d2.1.isEmpty then cache else (cacheKeyOf name country, d2.1, d2.2) :: cache),
        res.2.2)

/-- Looking up the key just written. -/
theorem cacheLookup_cons_self (key : String) (v : RealPayload × List RateEntry)
    (cache : RDCache) : cacheLookup ((key, v) :: cache) key = some v := by
  unfold cacheLookup
  rw [List.find?_cons_of_pos _ (by simp)]
  rfl

/-- A payload with a non-empty contributing-source list is non-empty. -/
theorem RealPayload.isEmpty_false_of_sources (p : RealPayload)
    (h : p.dataSourcesUsed ≠ []) : p.isEmpty = false := by
  unfold RealPayload.isEmpty
  cases hds : p.dataSourcesUsed with
  | nil => exact absurd hds h
  | cons a l => simp [hds]

/-- The static merge never removes the contributing-source list. -/
theorem mergeStatic_dataSourcesUsed (name : String) (d : RealPayload × List RateEntry) :
    (mergeStatic name d).1.dataSourcesUsed = d.1.dataSourcesUsed := by
  unfold mergeStatic
  cases tableLookup qsRankingsTable (strLower name) <;>
    cases tableLookup theRankingsTable (strLower name) <;> simp

/-- C5 (amended): on a cache miss, the aggregated payload is written to the
cache iff the merged payload is non-empty — i.e. iff some source
contributed data *or* a static QS/THE ranking-table entry matched; a
non-empty contributing-source list guarantees the write, but it is not
necessary for it. -/
theorem fetchRealData_cache_iff_payload_nonempty {σ : Type}
    (fetchAll : σ → RealPayload × List RateEntry × σ) (name country : String)
    (now : ℚ) (cache : RDCache) (s : σ)
    (hmiss : cacheLookup cache (cacheKeyOf name country) = none) :
    ((cacheLookup (fetchRealData fetchAll name country now cache s).2.2.1
        (cacheKeyOf name country)).isSome ↔
      (fetchRealData fetchAll name country now cache s).1.isEmpty = false) ∧
    ((fetchRealData fetchAll name country now cache s).1.dataSourcesUsed ≠ [] →
      (fetchRealData fetchAll name country now cache s).1.isEmpty = false) := by
  rw [fetchRealData.eq_def, hmiss]
  simp only
  constructor
  · cases hie : (mergeStatic name ((fetchAll s).1, (fetchAll s).2.1)).1.isEmpty with
    | true => simp [hie, hmiss]
    | false => simp [hie, cacheLookup_cons_self]
  · intro hds
    exact RealPayload.isEmpty_false_of_sources _ hds

/-- Witness for C5: a fresh Wikipedia-contributing payload on an empty
cache gets cached, and its source list forces non-emptiness. -/
theorem fetchRealData_cache_iff_payload_nonempty_witness :
    cacheLookup [] (cacheKeyOf "Test University" "USA") = none ∧
    (((cacheLookup (fetchRealData
          (fun _ : Unit => (⟨some ⟨"s", "http://w", none⟩, none, none, ["wikipedia"], none, none⟩,
            [], ()))
          "Test University" "USA" 0 [] ()).2.2.1
        (cacheKeyOf "Test University" "USA")).isSome ↔
      (fetchRealData
          (fun _ : Unit => (⟨some ⟨"s", "http://w", none⟩, none, none, ["wikipedia"], none, none⟩,
            [], ()))
          "Test University" "USA" 0 [] ()).1.isEmpty = false) ∧
    ((fetchRealData
          (fun _ : Unit => (⟨some ⟨"s", "http://w", none⟩, none, none, ["wikipedia"], none, none⟩,
            [], ()))
          "Test University" "USA" 0 [] ()).1.dataSourcesUsed ≠ [] →
      (fetchRealData
          (fun _ : Unit => (⟨some ⟨"s", "http://w", none⟩, none, none, ["wikipedia"], none, none⟩,
            [], ()))
          "Test University" "USA" 0 [] ()).1.isEmpty = false)) :=
  ⟨rfl,
   fetchRealData_cache_iff_payload_nonempty
     (fun _ : Unit => (⟨some ⟨"s", "http://w", none⟩, none, none, ["wikipedia"], none, none⟩,
       [], ()))
     "Test University" "USA" 0 [] () rfl⟩

/-- C5 counterexample: a request for "harvard university" in which *no*
source contributed data still produces a payload holding only the static
QS/THE merges, and that payload *is* written to the cache — refuting the
claim that caching happens only when the contributing-source list is
non-empty. -/
theorem fetchRealData_caches_static_only_payload :
    (fetchRealData (fun _ : Unit => (⟨none, none, none, [], none, none⟩, [], ()))
        "harvard university" "usa" 0 [] ()).1.dataSourcesUsed = [] ∧
    (fetchRealData (fun _ : Unit => (⟨none, none, none, [], none, none⟩, [], ()))
        "harvard university" "usa" 0 [] ()).1.qsRanking = some 4 ∧
    (fetchRealData (fun _ : Unit => (⟨none, none, none, [], none, none⟩, [], ()))
        "harvard university" "usa" 0 [] ()).1.theRanking = some 2 ∧
    (cacheLookup (fetchRealData (fun _ : Unit => (⟨none, none, none, [], none, none⟩, [], ()))
        "harvard university" "usa" 0 [] ()).2.2.1
      (cacheKeyOf "harvard university" "usa")).isSome = true :=
  ⟨rfl, rfl, rfl, rfl⟩

/-- C7: after a first aggregation that missed the cache and produced a
non-empty payload, a second call with the same (name, country) — under any
fetcher `g` and any tracker state `t` — returns the first call's payload,
its rate-info with exactly a cache-hit marker appended, the unchanged
cache, and the tracker state untouched: no network activity and zero
additional `record` calls. -/
theorem fetchRealData_cache_roundtrip {σ τ : Type}
    (fetchAll : σ → RealPayload × List RateEntry × σ)
    (g : τ → RealPayload × List RateEntry × τ)
    (name country : String) (now0 now1 : ℚ) (cache : RDCache) (s : σ) (t : τ)
    (hmiss : cacheLookup cache (cacheKeyOf name country) = none)
    (hne : (fetchRealData fetchAll name country now0 cache s).1.isEmpty = false) :
    fetchRealData g name country now1
        (fetchRealData fetchAll name country now0 cache s).2.2.1 t =
      ((fetchRealData fetchAll name country now0 cache s).1,
       (fetchRealData fetchAll name country now0 cache s).2.1 ++ [RateEntry.cacheHit now1],
       (fetchRealData fetchAll name country now0 cache s).2.2.1, t) := by
  have hfst : fetchRealData fetchAll name country now0 cache s =
      ((mergeStatic name ((fetchAll s).1, (fetchAll s).2.1)).1,
       (mergeStatic name ((fetchAll s).1, (fetchAll s).2.1)).2,
       (if (mergeStatic name ((fetchAll s).1, (fetchAll s).2.1)).1.isEmpty then cache
        else (cacheKeyOf name country,
          (mergeStatic name ((fetchAll s).1, (fetchAll s).2.1)).1,
          (mergeStatic name ((fetchAll s).1, (fetchAll s).2.1)).2) :: cache),
       (fetchAll s).2.2) := by
    rw [fetchRealData.eq_def, hmiss]
  rw [hfst] at hne
  simp only at hne
  rw [hfst]
  simp only [hne, if_false, Bool.false_eq_true]
  rw [fetchRealData.eq_def, cacheLookup_cons_self]

/-- Witness for C7 with a concrete Wikipedia payload and a second fetcher
that would return something different if it were ever consulted. -/
theorem fetchRealData_cache_roundtrip_witness :
    cacheLookup [] (cacheKeyOf "Test University" "USA") = none ∧
    (fetchRealData
        (fun _ : Unit => (⟨some ⟨"s", "http://w", none⟩, none, none, ["wikipedia"], none, none⟩,
          [], ()))
        "Test University" "USA" 0 [] ()).1.isEmpty = false ∧
    fetchRealData (fun _ : Unit => (⟨none, none, none, [], none, none⟩, [], ()))
        "Test University" "USA" 5
        (fetchRealData
          (fun _ : Unit => (⟨some ⟨"s", "http://w", none⟩, none, none, ["wikipedia"], none, none⟩,
            [], ()))
          "Test University" "USA" 0 [] ()).2.2.1 () =
      ((fetchRealData
          (fun _ : Unit => (⟨some ⟨"s", "http://w", none⟩, none, none, ["wikipedia"], none, none⟩,
            [], ()))
          "Test University" "USA" 0 [] ()).1,
       (fetchRealData
          (fun _ : Unit => (⟨some ⟨"s", "http://w", none⟩, none, none, ["wikipedia"], none, none⟩,
            [], ()))
          "Test University" "USA" 0 [] ()).2.1 ++ [RateEntry.cacheHit 5],
       (fetchRealData
          (fun _ : Unit => (⟨some ⟨"s", "http://w", none⟩, none, none, ["wikipedia"], none, none⟩,
            [], ()))
          "Test University" "USA" 0 [] ()).2.2.1, ()) :=
  ⟨rfl, rfl,
   fetchRealData_cache_roundtrip
     (fun _ : Unit => (⟨some ⟨"s", "http://w", none⟩, none, none, ["wikipedia"], none, none⟩,
       [], ()))
     (fun _ : Unit => (⟨none, none, none, [], none, none⟩, [], ()))
     "Test University" "USA" 0 5 [] () () rfl rfl⟩

/-- The payload the first colliding request fetches fresh. -/
def cexPayloadFirst : RealPayload :=
  ⟨some ⟨"first", "http://w/1", none⟩, none, none, ["wikipedia"], none, none⟩

/-- The payload the second colliding request *would* fetch fresh. -/
def cexPayloadSecond : RealPayload :=
  ⟨some ⟨"second", "http://w/2", none⟩, none, none, ["wikipedia"], none, none⟩

/-- C10: the cache key concatenates lowercased name, "_", lowercased
country, which is not injective: ("a_b", "c") and ("a", "b_c") are distinct
requests with the same key "a_b_c", so after the first request populates
the cache, the second is served the first request's payload instead of its
own fresh aggregation. -/
theorem cacheKey_collision_serves_stale_payload :
    cacheKeyOf "a_b" "c" = cacheKeyOf "a" "b_c" ∧
    (("a_b", "c") : String × String) ≠ ("a", "b_c") ∧
    (fetchRealData (fun _ : Unit => (cexPayloadSecond, [], ()))
        "a" "b_c" 1
        (fetchRealData (fun _ : Unit => (cexPayloadFirst, [], ())) "a_b" "c" 0 [] ()).2.2.1
        ()).1 = cexPayloadFirst ∧
    cexPayloadFirst ≠ cexPayloadSecond :=
  ⟨rfl, by decide, rfl, by decide⟩
